import Mathlib

/-!
Shallow embedding of the BookScape Explorer ingestion core
(`src/BookScape.py`): the Fetcher retry loop (`fetch_books`), the
Transformer (`transform_data`), the Store (`initialize_database`,
`save_to_database`) and the fixed query catalog (`queries`), together
with theorems settling the specification claims about them.
-/

namespace BookScape

/-- A provider price object (`listPrice` / `retailPrice` in `saleInfo`):
a JSON dictionary whose `amount` and `currencyCode` keys may be absent. -/
structure Price where
  amount : Option Rat
  currencyCode : Option String
deriving DecidableEq, Repr

/-- The `imageLinks` dictionary of `volumeInfo`; only its `thumbnail`
key is read by the code. -/
structure ImageLinks where
  thumbnail : Option String
deriving DecidableEq, Repr

/-- The JSON value found under `publishedDate`: the code checks
`isinstance(published_date, str)`, so we distinguish a string value from
any non-string value. -/
inductive PDVal where
  | str (s : String)
  | nonstr
deriving DecidableEq, Repr

/-- The `volumeInfo` dictionary of a raw API item; every key the code
reads may be absent. -/
structure VolumeInfo where
  title : Option String
  subtitle : Option String
  authors : Option (List String)
  description : Option String
  categories : Option (List String)
  pageCount : Option Int
  language : Option String
  imageLinks : Option ImageLinks
  averageRating : Option Rat
  ratingsCount : Option Int
  publisher : Option String
  publishedDate : Option PDVal
deriving DecidableEq, Repr

/-- The `saleInfo` dictionary of a raw API item. -/
structure SaleInfo where
  isEbook : Option Bool
  saleability : Option String
  listPrice : Option Price
  retailPrice : Option Price
  buyLink : Option String
  country : Option String
deriving DecidableEq, Repr

/-- A RawItem: one element of the `items` array returned by the books
API; `id`, `volumeInfo` and `saleInfo` may each be absent. -/
structure RawItem where
  id : Option String
  volumeInfo : Option VolumeInfo
  saleInfo : Option SaleInfo
deriving DecidableEq, Repr

/-- `{}`: the empty dictionary default of `book.get("volumeInfo", {})`. -/
def emptyVolumeInfo : VolumeInfo :=
  ⟨none, none, none, none, none, none, none, none, none, none, none, none⟩

/-- `{}`: the empty dictionary default of `book.get("saleInfo", {})`. -/
def emptySaleInfo : SaleInfo := ⟨none, none, none, none, none, none⟩

/-- `{}`: the empty dictionary default of `sale_info.get("listPrice", {})`. -/
def emptyPrice : Price := ⟨none, none⟩

/-- `{}`: the empty dictionary default of `volume_info.get("imageLinks", {})`. -/
def emptyImageLinks : ImageLinks := ⟨none⟩

/-- A raw item with every field absent. -/
def emptyRawItem : RawItem := ⟨none, none, none⟩

/-- One row appended by `transform_data`: the canonical BookRecord. -/
structure BookRecord where
  book_id : Option String
  title : String
  subtitle : String
  authors : String
  description : String
  categories : String
  page_count : Int
  language : String
  image_link : String
  average_rating : Rat
  ratings_count : Int
  publisher : String
  published_year : String
  is_ebook : Int
  saleability : String
  amount_list_price : Rat
  currency_code_list_price : String
  amount_retail_price : Rat
  currency_code_retail_price : String
  buy_link : String
  country : String
deriving DecidableEq, Repr

/-- Python `", ".join(xs)`. -/
def joinComma (xs : List String) : String := String.intercalate ", " xs

/-- Python `s or d` on strings: the empty string is falsy. -/
def orElseStr (s d : String) : String := if s = "" then d else s

/-- Python `published_date[:4]`: the first four characters. -/
def take4 (s : String) : String := String.mk (s.toList.take 4)

/-- The guard `len(published_date) >= 4 and published_date[:4].isdigit()`
(digits modelled as the decimal digits 0-9). -/
def headDigits (s : String) : Bool :=
  decide (4 ≤ s.toList.length) && (s.toList.take 4).all Char.isDigit

/-- Lines 38-41 of the source: derive `published_year` from the
(possibly absent, possibly non-string) `publishedDate` value. -/
def publishedYearOf (pd : Option PDVal) : String :=
  match pd.getD (PDVal.str "Unknown") with
  | PDVal.nonstr => "Unknown"
  | PDVal.str s => if headDigits s then take4 s else "Unknown"

/-- The record built for one raw item in the loop body of
`transform_data` (lines 32-65 of the source). -/
def transform_item (book : RawItem) : BookRecord :=
  let volume_info := book.volumeInfo.getD emptyVolumeInfo
  let sale_info := book.saleInfo.getD emptySaleInfo
  let list_price := sale_info.listPrice.getD emptyPrice
  let retail_price := sale_info.retailPrice.getD emptyPrice
  { book_id := book.id
    title := volume_info.title.getD "N/A"
    subtitle := volume_info.subtitle.getD "N/A"
    authors := orElseStr (joinComma (volume_info.authors.getD ["Unknown Author"])) "Unknown Author"
    description := volume_info.description.getD "No description available."
    categories := orElseStr (joinComma (volume_info.categories.getD ["N/A"])) "N/A"
    page_count := volume_info.pageCount.getD 0
    language := volume_info.language.getD "Unknown"
    image_link := (volume_info.imageLinks.getD emptyImageLinks).thumbnail.getD ""
    average_rating := volume_info.averageRating.getD 0
    ratings_count := volume_info.ratingsCount.getD 0
    publisher := volume_info.publisher.getD "Unknown Publisher"
    published_year := publishedYearOf volume_info.publishedDate
    is_ebook := if sale_info.isEbook.getD false then 1 else 0
    saleability := sale_info.saleability.getD "Not for Sale"
    amount_list_price := list_price.amount.getD 0
    currency_code_list_price := list_price.currencyCode.getD ""
    amount_retail_price := retail_price.amount.getD 0
    currency_code_retail_price := retail_price.currencyCode.getD ""
    buy_link := sale_info.buyLink.getD ""
    country := sale_info.country.getD "N/A" }

/-- `transform_data` (lines 30-66): start from an empty list and append
one record per raw item, in order. -/
def transform_data (books : List RawItem) : List BookRecord :=
  books.foldl (fun data book => data ++ [transform_item book]) []

/-- An HTTP response as `fetch_books` observes it: a status code and,
for a 200 body, the optional `items` array of the parsed JSON. -/
structure HttpResponse where
  status : Nat
  items : Option (List RawItem)
deriving DecidableEq

/-- The observable outcome of one `fetch_books` call: the returned
items, how many requests were issued, the seconds slept after each 403
(in order), and whether `st.error` was shown for a non-200/403 status. -/
structure FetchOutcome where
  items : List RawItem
  attempts : Nat
  waits : List Nat
  errorReported : Bool
deriving DecidableEq

/-- The `for _ in range(retries)` loop of `fetch_books` (lines 16-25):
`responses k` is the response to the k-th request issued; the first
argument is the number of loop iterations left. -/
def fetchAux (responses : Nat → HttpResponse) :
    Nat → Nat → List Nat → FetchOutcome
  | 0, attempts, waits => ⟨[], attempts, waits, false⟩
  | k + 1, attempts, waits =>
    let response := responses attempts
    if response.status = 200 then
      ⟨response.items.getD [], attempts + 1, waits, false⟩
    else if response.status = 403 then
      fetchAux responses k (attempts + 1) (waits ++ [10])
    else
      ⟨[], attempts + 1, waits, true⟩

/-- `fetch_books` (lines 13-26): `retries = 3`, falling through the loop
returns `[]`. -/
def fetch_books (responses : Nat → HttpResponse) : FetchOutcome :=
  fetchAux responses 3 0 []

/-- The column list of `CREATE TABLE IF NOT EXISTS books` (lines 74-96),
as (column name, declared type) pairs. -/
def booksColumns : List (String × String) :=
  [("book_id", "TEXT PRIMARY KEY"),
   ("title", "TEXT"),
   ("subtitle", "TEXT"),
   ("authors", "TEXT"),
   ("description", "TEXT"),
   ("categories", "TEXT"),
   ("page_count", "INTEGER"),
   ("language", "TEXT"),
   ("image_link", "TEXT"),
   ("average_rating", "REAL"),
   ("ratings_count", "INTEGER"),
   ("publisher", "TEXT"),
   ("published_year", "TEXT"),
   ("is_ebook", "INTEGER"),
   ("saleability", "TEXT"),
   ("amount_list_price", "REAL"),
   ("currency_code_list_price", "TEXT"),
   ("amount_retail_price", "REAL"),
   ("currency_code_retail_price", "TEXT"),
   ("buy_link", "TEXT"),
   ("country", "TEXT")]

/-- Modelled from the spec: the sqlite3 engine executing
`initialize_database` (lines 70-99) is not part of the repository, so
CREATE TABLE IF NOT EXISTS is modelled on a store state that is `none`
when the `books` table does not exist and `some schema` when it does:
when the table exists the statement succeeds and leaves the schema
untouched, otherwise it creates the table with `booksColumns`. -/
def initialize_database (db : Option (List (String × String))) :
    Except String (Option (List (String × String))) :=
  match db with
  | none => Except.ok (some booksColumns)
  | some schema => Except.ok (some schema)

/-- Does inserting `r` violate the `book_id` primary key against the
rows already in the table?  (SQLite does not treat NULL keys as
colliding, so an absent id never clashes.) -/
def pkClash (rows : List BookRecord) (r : BookRecord) : Bool :=
  match r.book_id with
  | none => false
  | some s => rows.any (fun x => decide (x.book_id = some s))

/-- Modelled from the spec: `save_to_database` (lines 103-104) delegates
to pandas `to_sql(..., if_exists="append")`, whose engine is not part of
the repository; it is modelled as row-by-row INSERTs into the table,
failing with a constraint violation on a `book_id` collision and
otherwise appending the batch in order. -/
def save_to_database (table : List BookRecord) :
    List BookRecord → Except String (List BookRecord)
  | [] => Except.ok table
  | r :: rest =>
    if pkClash table r then
      Except.error "UNIQUE constraint failed: books.book_id"
    else
      save_to_database (table ++ [r]) rest

/-- Two records whose `book_id`s cannot collide on insert: the first has
no id, or the ids differ. -/
def pkDistinct (a b : BookRecord) : Prop :=
  a.book_id = none ∨ a.book_id ≠ b.book_id

instance (a b : BookRecord) : Decidable (pkDistinct a b) := by
  unfold pkDistinct; infer_instance

/-- Does the character list `l` contain `sub` as a contiguous run? -/
def hasInfixChars (sub : List Char) : List Char → Bool
  | [] => sub.isEmpty
  | c :: rest => sub.isPrefixOf (c :: rest) || hasInfixChars sub rest

/-- Is `sub` a contiguous substring of `s`? -/
def containsSub (s sub : String) : Bool := hasInfixChars sub.toList s.toList

/-- The 20-entry query catalog `queries` (lines 139-160), transcribed
verbatim as (name, SQL) pairs in source order. -/
def queries : List (String × String) :=
  [("Availability of eBooks vs Physical Books",
    "SELECT CASE WHEN is_ebook = 1 THEN \x27eBook\x27 ELSE \x27Physical Book\x27 END AS book_type, COUNT(*) AS count FROM books GROUP BY is_ebook"),
   ("Publisher with Most Books Published",
    "SELECT publisher, COUNT(*) AS count FROM books GROUP BY publisher ORDER BY count DESC LIMIT 1"),
   ("Publisher with Highest Average Rating",
    "SELECT publisher, AVG(average_rating) AS avg_rating FROM books GROUP BY publisher ORDER BY avg_rating DESC LIMIT 1"),
   ("Top 5 Most Expensive Books",
    "SELECT title, amount_retail_price FROM books ORDER BY amount_retail_price DESC LIMIT 5"),
   ("Books Published After 2010 with at Least 500 Pages",
    "SELECT title, page_count FROM books WHERE published_year > \x272010\x27 AND page_count >= 500"),
   ("Books with Discounts Greater than 20%",
    "SELECT title, amount_list_price, amount_retail_price FROM books WHERE (amount_list_price - amount_retail_price) / amount_list_price > 0.2"),
   ("Top 3 Authors with Most Books",
    "SELECT authors, COUNT(*) AS book_count FROM books GROUP BY authors ORDER BY book_count DESC LIMIT 3"),
   ("Books with More than 3 Authors",
    "SELECT title, authors FROM books WHERE LENGTH(authors) - LENGTH(REPLACE(authors, \x27,\x27, \x27\x27)) + 1 > 3"),
   ("Books Published in the Last 5 Years",
    "SELECT title, published_year FROM books WHERE published_year >= strftime(\x27%Y\x27, \x27now\x27) - 5"),
   ("Top 3 Most Popular Books by Rating",
    "SELECT title, average_rating FROM books ORDER BY average_rating DESC LIMIT 3"),
   ("Top 5 Most Expensive eBooks",
    "SELECT title, amount_retail_price FROM books WHERE is_ebook = 1 ORDER BY amount_retail_price DESC LIMIT 5"),
   ("Top 5 Books by Ratings Count",
    "SELECT title, ratings_count FROM books ORDER BY ratings_count DESC LIMIT 5"),
   ("Books with Missing Descriptions",
    "SELECT title FROM books WHERE description = \x27No description available.\x27"),
   ("Books with Missing Images",
    "SELECT title FROM books WHERE image_link = \x27\x27"),
   ("Books with a Rating Below 3",
    "SELECT title FROM books WHERE average_rating < 3"),
   ("Books by Publisher with the Most Ratings",
    "SELECT publisher, SUM(ratings_count) FROM books GROUP BY publisher ORDER BY SUM(ratings_count) DESC LIMIT 1"),
   ("Books Over 1000 Pages",
    "SELECT title, page_count FROM books WHERE page_count > 1000"),
   ("Top 5 Books by Category",
    "SELECT categories, COUNT(*) FROM books GROUP BY categories ORDER BY COUNT(*) DESC LIMIT 5"),
   ("Top 3 Publishers with the Most eBooks",
    "SELECT publisher, COUNT(*) FROM books WHERE is_ebook = 1 GROUP BY publisher ORDER BY COUNT(*) DESC LIMIT 3"),
   ("Most Expensive Books by Publisher",
    "SELECT publisher, MAX(amount_retail_price) FROM books GROUP BY publisher ORDER BY MAX(amount_retail_price) DESC LIMIT 1")]

/-- Extract N from a catalog name of the form "Top N ...". -/
def topN (name : String) : Option Nat :=
  match name.toList with
  | 'T' :: 'o' :: 'p' :: ' ' :: c :: _ =>
    if c.isDigit then some (c.toNat - 48) else none
  | _ => none

/-- Every "Top N" entry of the catalog carries `LIMIT N` inside its own
query string. -/
def topQueriesLimited : Bool :=
  queries.all (fun p =>
    match topN p.1 with
    | some n => containsSub p.2 ("LIMIT " ++ toString n)
    | none => true)

/-- Every catalog entry is a read-only SELECT statement. -/
def queriesReadOnly : Bool :=
  queries.all (fun p => p.2.toList.take 7 = "SELECT ".toList)

/-- The SQL text of the "Top 5 Most Expensive Books" entry. -/
def top5ExpensiveSQL : String :=
  "SELECT title, amount_retail_price FROM books ORDER BY amount_retail_price DESC LIMIT 5"

/-- Modelled from the spec: SQLite executing
`ORDER BY amount_retail_price DESC LIMIT 5` is not part of the
repository; the result set is modelled as the stored rows sorted by
descending retail price, truncated to 5 rows. -/
def top5MostExpensive (rows : List BookRecord) : List BookRecord :=
  (rows.mergeSort (fun a b => decide (b.amount_retail_price ≤ a.amount_retail_price))).take 5

/-- A raw item whose only populated field is `publishedDate`, set to the
string `s`. -/
def mkPD (s : String) : RawItem :=
  ⟨none, some { emptyVolumeInfo with publishedDate := some (PDVal.str s) }, none⟩

/-- A raw item whose `authors` and `categories` are present but empty lists. -/
def mkEmptyLists : RawItem :=
  ⟨none, some { emptyVolumeInfo with authors := some [], categories := some [] }, none⟩

/-- The record obtained when every source field is absent: each field of
the data-model table at its default, `book_id` at `none`. -/
def defaultBookRecord : BookRecord :=
  { book_id := none
    title := "N/A"
    subtitle := "N/A"
    authors := "Unknown Author"
    description := "No description available."
    categories := "N/A"
    page_count := 0
    language := "Unknown"
    image_link := ""
    average_rating := 0
    ratings_count := 0
    publisher := "Unknown Publisher"
    published_year := "Unknown"
    is_ebook := 0
    saleability := "Not for Sale"
    amount_list_price := 0
    currency_code_list_price := ""
    amount_retail_price := 0
    currency_code_retail_price := ""
    buy_link := ""
    country := "N/A" }

/-- Every defaulting rule of `transform_data`: whenever a source field is
absent from the raw item, the corresponding record field holds its
default value from the data-model table. -/
def absentDefaults (book : RawItem) (r : BookRecord) : Prop :=
  let vi := book.volumeInfo.getD emptyVolumeInfo
  let si := book.saleInfo.getD emptySaleInfo
  (vi.title = none → r.title = "N/A") ∧
  (vi.subtitle = none → r.subtitle = "N/A") ∧
  (vi.authors = none → r.authors = "Unknown Author") ∧
  (vi.description = none → r.description = "No description available.") ∧
  (vi.categories = none → r.categories = "N/A") ∧
  (vi.pageCount = none → r.page_count = 0) ∧
  (vi.language = none → r.language = "Unknown") ∧
  (vi.imageLinks = none → r.image_link = "") ∧
  (vi.averageRating = none → r.average_rating = 0) ∧
  (vi.ratingsCount = none → r.ratings_count = 0) ∧
  (vi.publisher = none → r.publisher = "Unknown Publisher") ∧
  (vi.publishedDate = none → r.published_year = "Unknown") ∧
  (si.isEbook = none → r.is_ebook = 0) ∧
  (si.saleability = none → r.saleability = "Not for Sale") ∧
  (si.listPrice = none → r.amount_list_price = 0 ∧ r.currency_code_list_price = "") ∧
  (si.retailPrice = none → r.amount_retail_price = 0 ∧ r.currency_code_retail_price = "") ∧
  (si.buyLink = none → r.buy_link = "") ∧
  (si.country = none → r.country = "N/A")

theorem foldl_append_map {α β : Type} (f : α → β) :
    ∀ (l : List α) (acc : List β),
      l.foldl (fun data b => data ++ [f b]) acc = acc ++ l.map f := by
  intro l
  induction l with
  | nil => intro acc; simp
  | cons b rest ih => intro acc; simp [List.foldl_cons, ih]

theorem transform_data_eq_map (books : List RawItem) :
    transform_data books = books.map transform_item := by
  simpa [transform_data] using foldl_append_map transform_item books []

theorem take4_length_le (s : String) : (take4 s).length ≤ 4 := by
  have h : (take4 s).length = (s.toList.take 4).length := rfl
  rw [h, List.length_take]
  exact min_le_left 4 s.toList.length

theorem unknown_ne_take4 (s : String) : ("Unknown" : String) ≠ take4 s := by
  intro h
  have hlen : ("Unknown" : String).length = (take4 s).length := congrArg String.length h
  have h7 : ("Unknown" : String).length = 7 := rfl
  have h4 := take4_length_le s
  omega

/-- **C1.** `transform_data` is total and per-item: the output has
exactly one BookRecord per input item (same length, the i-th output is
the transform of the i-th input), and on any raw item every record field
whose source is absent is populated with its default from the data-model
table. -/
theorem transform_total_and_defaulted (books : List RawItem) (i : Nat) (b : RawItem) :
    (transform_data books).length = books.length ∧
    (transform_data books)[i]? = (books[i]?).map transform_item ∧
    absentDefaults b (transform_item b) := by
  refine ⟨?_, ?_, ?_⟩
  · rw [transform_data_eq_map, List.length_map]
  · rw [transform_data_eq_map]
    exact List.getElem?_map transform_item books i
  · unfold absentDefaults
    refine ⟨?_, ?_, ?_, ?_, ?_, ?_, ?_, ?_, ?_, ?_, ?_, ?_, ?_, ?_, ?_, ?_, ?_, ?_⟩ <;>
      intro h <;>
      simp [transform_item, h, publishedYearOf, joinComma, orElseStr, emptyImageLinks, emptyPrice] <;>
      decide

/-- **C2.** `published_year` equals the first four characters of the
`publishedDate` string exactly when the string has at least four
characters and they are all digits, and is "Unknown" otherwise; in
particular "2024" gives "2024" while "20", "" and "abcd-01-01" give
"Unknown". -/
theorem published_year_digits (book : RawItem) (s : String)
    (h : (book.volumeInfo.getD emptyVolumeInfo).publishedDate = some (PDVal.str s)) :
    ((transform_item book).published_year = take4 s ↔ headDigits s = true) ∧
    (headDigits s = false → (transform_item book).published_year = "Unknown") ∧
    (transform_item (mkPD "2024")).published_year = "2024" ∧
    (transform_item (mkPD "20")).published_year = "Unknown" ∧
    (transform_item (mkPD "")).published_year = "Unknown" ∧
    (transform_item (mkPD "abcd-01-01")).published_year = "Unknown" := by
  have hy : (transform_item book).published_year = publishedYearOf (some (PDVal.str s)) := by
    simp [transform_item, h]
  have hcase : publishedYearOf (some (PDVal.str s)) =
      if headDigits s then take4 s else "Unknown" := rfl
  refine ⟨?_, ?_, by decide, by decide, by decide, by decide⟩
  · rw [hy, hcase]
    by_cases hd : headDigits s
    · simp [hd]
    · simp [hd]
      exact fun hcontra => unknown_ne_take4 s hcontra
  · intro hd
    rw [hy, hcase, hd]
    simp

theorem published_year_digits_witness :
    (transform_item (mkPD "2024")).published_year = take4 "2024" :=
  (published_year_digits (mkPD "2024") "2024" rfl).1.mpr (by decide)

/-- **C3.** When the source `authors` (resp. `categories`) list is
present but empty, the transformed field is the default "Unknown
Author" (resp. "N/A"), never the empty string. -/
theorem empty_list_defaults (book : RawItem) :
    ((book.volumeInfo.getD emptyVolumeInfo).authors = some [] →
      (transform_item book).authors = "Unknown Author") ∧
    ((book.volumeInfo.getD emptyVolumeInfo).categories = some [] →
      (transform_item book).categories = "N/A") := by
  have hnil : String.intercalate ", " ([] : List String) = "" := rfl
  constructor
  · intro h
    simp [transform_item, h, joinComma, orElseStr, hnil]
  · intro h
    simp [transform_item, h, joinComma, orElseStr, hnil]

theorem empty_list_defaults_witness :
    (transform_item mkEmptyLists).authors = "Unknown Author" ∧
    (transform_item mkEmptyLists).categories = "N/A" :=
  ⟨(empty_list_defaults mkEmptyLists).1 rfl, (empty_list_defaults mkEmptyLists).2 rfl⟩

theorem fetchAux_attempts_le (responses : Nat → HttpResponse) :
    ∀ (k a : Nat) (w : List Nat), (fetchAux responses k a w).attempts ≤ a + k := by
  intro k
  induction k with
  | zero => intro a w; simp [fetchAux]
  | succ n ih =>
    intro a w
    by_cases h200 : (responses a).status = 200
    · simp [fetchAux, h200]
    · by_cases h403 : (responses a).status = 403
      · simp [fetchAux, h200, h403]
        have := ih (a + 1) (w ++ [10])
        omega
      · simp [fetchAux, h200, h403]

/-- **C4.** `fetch_books` issues at most 3 request attempts; when every
attempt is answered with HTTP 403 it exhausts the retries, returns the
empty item list after exactly 3 attempts, sleeps 10 seconds after each
403, and so accumulates at least 20 seconds of wait time. -/
theorem fetch_retries_403 (responses : Nat → HttpResponse)
    (h : ∀ k, k < 3 → (responses k).status = 403) :
    (∀ rs : Nat → HttpResponse, (fetch_books rs).attempts ≤ 3) ∧
    fetch_books responses = ⟨[], 3, [10, 10, 10], false⟩ ∧
    20 ≤ (fetch_books responses).waits.sum := by
  have h0 := h 0 (by omega)
  have h1 := h 1 (by omega)
  have h2 := h 2 (by omega)
  have hmain : fetch_books responses = ⟨[], 3, [10, 10, 10], false⟩ := by
    simp [fetch_books, fetchAux, h0, h1, h2]
  refine ⟨?_, hmain, ?_⟩
  · intro rs
    simpa [fetch_books] using fetchAux_attempts_le rs 3 0 []
  · rw [hmain]
    decide

theorem fetch_retries_403_witness :
    fetch_books (fun _ => ⟨403, none⟩) = ⟨[], 3, [10, 10, 10], false⟩ :=
  (fetch_retries_403 (fun _ => ⟨403, none⟩) (fun _ _ => rfl)).2.1

/-- **C5.** When the first response status is neither 200 nor 403,
`fetch_books` reports an error and returns the empty item list after
exactly one attempt, with no retry and no wait. -/
theorem fetch_error_immediate (responses : Nat → HttpResponse)
    (h200 : (responses 0).status ≠ 200) (h403 : (responses 0).status ≠ 403) :
    fetch_books responses = ⟨[], 1, [], true⟩ := by
  simp [fetch_books, fetchAux, h200, h403]

theorem fetch_error_immediate_witness :
    fetch_books (fun _ => ⟨500, none⟩) = ⟨[], 1, [], true⟩ :=
  fetch_error_immediate (fun _ => ⟨500, none⟩) (by decide) (by decide)

/-- **C6.** The query catalog has exactly 20 read-only entries; every
"Top N" entry carries `LIMIT N` inside its own query string
("Top 5 Most Expensive Books" in particular orders by descending retail
price with `LIMIT 5`), and the modelled execution of that query returns
at most 5 rows sorted by descending retail price. -/
theorem query_catalog_shape (rows : List BookRecord) :
    queries.length = 20 ∧
    topQueriesLimited = true ∧
    queriesReadOnly = true ∧
    queries.lookup "Top 5 Most Expensive Books" = some top5ExpensiveSQL ∧
    containsSub top5ExpensiveSQL "ORDER BY amount_retail_price DESC LIMIT 5" = true ∧
    (top5MostExpensive rows).length ≤ 5 ∧
    List.Pairwise (fun a b => b.amount_retail_price ≤ a.amount_retail_price)
      (top5MostExpensive rows) := by
  refine ⟨by decide, by decide, by decide, by decide, by decide, ?_, ?_⟩
  · have h := List.length_take 5
      (rows.mergeSort (fun a b => decide (b.amount_retail_price ≤ a.amount_retail_price)))
    rw [top5MostExpensive, h]
    exact min_le_left 5 _
  · have htrans : ∀ a b c : BookRecord,
        decide (b.amount_retail_price ≤ a.amount_retail_price) = true →
        decide (c.amount_retail_price ≤ b.amount_retail_price) = true →
        decide (c.amount_retail_price ≤ a.amount_retail_price) = true := by
      intro a b c hab hbc
      simp only [decide_eq_true_eq] at hab hbc ⊢
      exact le_trans hbc hab
    have htotal : ∀ a b : BookRecord,
        (decide (b.amount_retail_price ≤ a.amount_retail_price) ||
         decide (a.amount_retail_price ≤ b.amount_retail_price)) = true := by
      intro a b
      simp only [Bool.or_eq_true, decide_eq_true_eq]
      exact le_total _ _
    have hs := List.sorted_mergeSort htrans htotal rows
    have hp : List.Pairwise (fun a b : BookRecord =>
        b.amount_retail_price ≤ a.amount_retail_price)
        (rows.mergeSort (fun a b => decide (b.amount_retail_price ≤ a.amount_retail_price))) :=
      hs.imp (fun h => of_decide_eq_true h)
    exact List.Pairwise.sublist (List.take_sublist 5 _) hp

theorem save_append_ok :
    ∀ (df table : List BookRecord),
      (table ++ df).Pairwise pkDistinct →
      save_to_database table df = Except.ok (table ++ df) := by
  intro df
  induction df with
  | nil => intro table h; simp [save_to_database]
  | cons r rest ih =>
    intro table h
    have hclash : pkClash table r = false := by
      rw [pkClash]
      cases hr : r.book_id with
      | none => rfl
      | some s =>
        rw [List.any_eq_false]
        intro x hx
        simp only [decide_eq_true_eq]
        intro hxs
        have h3 := (List.pairwise_append.mp h).2.2 x hx r (List.mem_cons_self r rest)
        rcases h3 with h3 | h3
        · rw [h3] at hxs
          exact Option.noConfusion hxs
        · exact h3 (by rw [hxs, hr])
    have h' : ((table ++ [r]) ++ rest).Pairwise pkDistinct := by
      rw [List.append_assoc]
      simpa using h
    have hrec := ih (table ++ [r]) h'
    calc save_to_database table (r :: rest)
        = save_to_database (table ++ [r]) rest := by
          simp [save_to_database, hclash]
      _ = Except.ok ((table ++ [r]) ++ rest) := hrec
      _ = Except.ok (table ++ r :: rest) := by simp

/-- **C7.** When the batch's `book_id`s collide neither with each other
nor with the existing rows, the append writes exactly one new row per
BookRecord: it succeeds with the old table followed by the batch, the
row count grows by the batch size, and the existing rows are untouched. -/
theorem append_adds_rows (table df : List BookRecord)
    (h : (table ++ df).Pairwise pkDistinct) :
    save_to_database table df = Except.ok (table ++ df) ∧
    (table ++ df).length = table.length + df.length ∧
    (table ++ df).take table.length = table := by
  refine ⟨save_append_ok df table h, by simp, ?_⟩
  exact List.take_left table df

theorem append_adds_rows_witness :
    save_to_database [] [transform_item emptyRawItem] =
      Except.ok [transform_item emptyRawItem] := by
  have h := append_adds_rows [] [transform_item emptyRawItem] (by simp)
  simpa using h.1

/-- **C8.** Schema creation is idempotent: on any store state it
succeeds, and running it again on the resulting state succeeds and
leaves the schema unchanged (the `books` table existing afterwards). -/
theorem initialize_database_idempotent (db : Option (List (String × String))) :
    ∃ db2, initialize_database db = Except.ok db2 ∧
      initialize_database db2 = Except.ok db2 ∧ db2.isSome = true := by
  cases db with
  | none => exact ⟨some booksColumns, rfl, rfl, rfl⟩
  | some schema => exact ⟨some schema, rfl, rfl, rfl⟩

/-- **C9.** `transform_data` is an order-preserving per-item map: the
output length equals the input length, the i-th output depends only on
the i-th input, and transforming a concatenation equals concatenating
the transforms. -/
theorem transform_map_append (books books2 : List RawItem) (i : Nat) :
    (transform_data books).length = books.length ∧
    (transform_data books)[i]? = (books[i]?).map transform_item ∧
    transform_data (books ++ books2) =
      transform_data books ++ transform_data books2 := by
  refine ⟨?_, ?_, ?_⟩
  · rw [transform_data_eq_map, List.length_map]
  · rw [transform_data_eq_map]
    exact List.getElem?_map transform_item books i
  · simp [transform_data_eq_map]

/-- **C10.** A raw item with no `id` yields a record whose `book_id` is
the absent value; every other field of the fully-absent item gets its
table default (so `book_id` is the only field without one), even though
`book_id` is declared the TEXT primary key of the `books` table. -/
theorem book_id_no_default (book : RawItem) (h : book.id = none) :
    (transform_item book).book_id = none ∧
    transform_item emptyRawItem = defaultBookRecord ∧
    booksColumns.lookup "book_id" = some "TEXT PRIMARY KEY" := by
  refine ⟨?_, by decide, by decide⟩
  simp [transform_item, h]

theorem book_id_no_default_witness :
    (transform_item emptyRawItem).book_id = none :=
  (book_id_no_default emptyRawItem rfl).1

end BookScape
